import Mathlib

/-!
Shallow embedding of the redirect service of `url-shortener-demo`
(`main.go` of the redirect service): the Redis-backed mapping store,
the Kafka click-event publisher, and the HTTP handlers
`redirectHandler`, `healthHandler`, together with the helper
functions `getIP` and `respondJSON`.

Wall-clock time is abstracted as a `Nat` tick passed explicitly where
the Go code calls `time.Now()`.
-/

namespace RedirectService

/-- Result of a Redis `GET`: `nil` is `redis.Nil` (key absent), `connErr`
is any other error (store unreachable). -/
inductive RedisErr where
  | nil
  | connErr
deriving DecidableEq, Repr

/-- The key-value mapping store (Redis).  `data` is the stored key-value
mapping, `reachable` models whether the store answers, and `gets` counts
the `GET` calls issued to the store (instrumentation used to state the
no-retry properties). -/
structure Store where
  data : List (String × String)
  reachable : Bool
  gets : Nat
deriving DecidableEq, Repr

/-- Embeds `redisClient.Get(ctx, key).Result()`: on a reachable store an
absent key yields `redis.Nil`, a present key yields its value; an
unreachable store yields a connection error.  The returned store has its
`GET` counter advanced; the data is untouched. -/
def redisGet (s : Store) (key : String) : Store × Except RedisErr String :=
  let s1 : Store := { s with gets := s.gets + 1 }
  if s.reachable then
    match s.data.lookup key with
    | some v => (s1, Except.ok v)
    | none => (s1, Except.error RedisErr.nil)
  else
    (s1, Except.error RedisErr.connErr)

/-- An incoming HTTP request: its headers, the peer address
(`r.RemoteAddr`) and nothing more; the short code is extracted by the
router and passed to the handler separately, as `mux.Vars` does. -/
structure Request where
  headers : List (String × String)
  remoteAddr : String
deriving DecidableEq, Repr

/-- Embeds `r.Header.Get(k)`: the header value, or `""` when absent. -/
def headerGet (hs : List (String × String)) (k : String) : String :=
  match hs.lookup k with
  | some v => v
  | none => ""

/-- Embeds `getIP` of the redirect service: `X-Forwarded-For` if
non-empty, else `X-Real-IP` if non-empty, else `r.RemoteAddr`. -/
def getIP (r : Request) : String :=
  let forwarded := headerGet r.headers "X-Forwarded-For"
  if forwarded ≠ "" then
    forwarded
  else
    let realIP := headerGet r.headers "X-Real-IP"
    if realIP ≠ "" then
      realIP
    else
      r.remoteAddr

/-- The `ClickEvent` struct: `{shortCode, timestamp, userAgent, ip}`. -/
structure ClickEvent where
  shortCode : String
  timestamp : Nat
  userAgent : String
  ip : String
deriving DecidableEq, Repr

/-- JSON escaping for one character (quote and backslash). -/
def jsonEscapeChar (c : Char) : String :=
  if c = '\\' then "\\\\"
  else if c = '"' then "\\\""
  else String.singleton c

/-- JSON rendering of a string literal. -/
def jsonStr (s : String) : String :=
  "\"" ++ String.join (s.toList.map jsonEscapeChar) ++ "\""

/-- Embeds `json.Marshal` on a `ClickEvent`; on this struct Go's
marshalling never fails, so the error branch of the `Except` is dead,
exactly as in the source. -/
def jsonMarshal (e : ClickEvent) : Except String String :=
  Except.ok ("\x7b\"shortCode\":" ++ jsonStr e.shortCode ++
    ",\"timestamp\":" ++ toString e.timestamp ++
    ",\"userAgent\":" ++ jsonStr e.userAgent ++
    ",\"ip\":" ++ jsonStr e.ip ++ "\x7d")

/-- A Kafka message: `Key` and `Value` (byte slices, modelled as the
strings they are built from). -/
structure KafkaMessage where
  key : String
  value : String
deriving DecidableEq, Repr

/-- One per-partition byte counter of the `LeastBytes` balancer. -/
structure LBCounter where
  part : Nat
  bytes : Nat
deriving DecidableEq, Repr

/-- State of kafka-go's `LeastBytes` balancer: its counters. -/
structure LeastBytes where
  counters : List LBCounter
deriving DecidableEq, Repr

/-- The scan loop of `LeastBytes.Balance` over `counters[1:]`: keeps the
index of the first counter with strictly fewest bytes. -/
def lbScan : List LBCounter → Nat → Nat → Nat → Nat
  | [], _, minIdx, _ => minIdx
  | c :: rest, i, minIdx, minBytes =>
    if c.bytes < minBytes then
      lbScan rest (i + 1) i c.bytes
    else
      lbScan rest (i + 1) minIdx minBytes

/-- Embeds kafka-go's `LeastBytes.Balance` (the balancer the service
installs in `initKafka`): it rebuilds the counters when the partition
list changed, picks the partition that has received the fewest bytes so
far — ignoring the message key — charges the message size to it, and
returns it.  (Go would panic on an empty partition list; a topic always
has at least one partition, and the `[]` branch is unreachable there.) -/
def lbBalance (lb : LeastBytes) (msg : KafkaMessage) (parts : List Nat) :
    LeastBytes × Nat :=
  let counters :=
    if lb.counters.length ≠ parts.length then
      parts.map (fun p => { part := p, bytes := 0 })
    else
      lb.counters
  match counters with
  | [] => (lb, 0)
  | c0 :: rest =>
    let minIndex := lbScan rest 1 0 c0.bytes
    let size := msg.key.utf8ByteSize + msg.value.utf8ByteSize
    let counters2 := counters.mapIdx
      (fun i c => if i = minIndex then { c with bytes := c.bytes + size } else c)
    (⟨counters2⟩, (counters.getD minIndex c0).part)

/-- The Kafka writer: the topic's partition ids, the balancer state, the
log of written messages tagged with their partition, a reachability
flag, and a counter of write attempts (instrumentation used to state
the no-retry properties). -/
structure KafkaState where
  partIds : List Nat
  balancer : LeastBytes
  log : List (Nat × KafkaMessage)
  reachable : Bool
  attempts : Nat
deriving DecidableEq, Repr

/-- Embeds `kafkaWriter.WriteMessages` for one message: the balancer
assigns a partition and the message is appended to the log; an
unreachable broker yields an error and writes nothing.  Every call is
one attempt. -/
def writeMessages (k : KafkaState) (msg : KafkaMessage) :
    KafkaState × Option String :=
  let k1 : KafkaState := { k with attempts := k.attempts + 1 }
  if k.reachable then
    let (b2, p) := lbBalance k.balancer msg k.partIds
    ({ k1 with balancer := b2, log := k1.log ++ [(p, msg)] }, none)
  else
    (k1, some "kafka: broker unreachable")

/-- Embeds `publishClickEvent`: builds the `ClickEvent` (user agent from
the `User-Agent` header as `r.UserAgent()` does, address from `getIP`),
marshals it, and writes it with `Key = []byte(shortCode)`.  Both failure
branches only log and return; nothing is retried and no error escapes. -/
def publishClickEvent (k : KafkaState) (shortCode : String) (r : Request)
    (now : Nat) : KafkaState × List String :=
  let event : ClickEvent :=
    { shortCode := shortCode
      timestamp := now
      userAgent := headerGet r.headers "User-Agent"
      ip := getIP r }
  match jsonMarshal event with
  | Except.error _ =>
    (k, ["[Redirect Service] Failed to marshal click event"])
  | Except.ok jsonData =>
    match writeMessages k { key := shortCode, value := jsonData } with
    | (k2, some _) => (k2, ["[Redirect Service] Failed to publish to Kafka"])
    | (k2, none) => (k2, ["[Redirect Service] Published click event to Kafka"])

/-- An HTTP response as the handlers build it: status code, optional
`Location` header, body, content type. -/
structure HttpResponse where
  status : Nat
  location : Option String := none
  body : String := ""
  contentType : String := ""
deriving DecidableEq, Repr

/-- A publish task spawned with `go publishClickEvent(shortCode, r)`:
the data the goroutine captures. -/
structure SpawnedPublish where
  shortCode : String
  req : Request
deriving DecidableEq, Repr

/-- Embeds `redirectHandler`: a Redis `GET` on `"url:" + shortCode`;
`redis.Nil` yields 404, any other error yields 500, a hit spawns the
publish task and redirects with 302 and `Location` set to the stored
URL.  The spawned tasks are returned as data: the handler's response
never consumes their outcome. -/
def redirectHandler (s : Store) (shortCode : String) (r : Request) :
    Store × HttpResponse × List SpawnedPublish :=
  match redisGet s ("url:" ++ shortCode) with
  | (s1, Except.error RedisErr.nil) =>
    (s1, { status := 404, body := "Short URL not found" }, [])
  | (s1, Except.error RedisErr.connErr) =>
    (s1, { status := 500, body := "Internal server error" }, [])
  | (s1, Except.ok originalURL) =>
    (s1, { status := 302, location := some originalURL },
      [{ shortCode := shortCode, req := r }])

/-- Runs the spawned publish tasks against the Kafka writer, collecting
their log lines.  In the service this happens on detached goroutines,
after (or concurrently with) the response being written. -/
def runPublishTasks (k : KafkaState) (now : Nat) :
    List SpawnedPublish → KafkaState × List String
  | [] => (k, [])
  | t :: ts =>
    let (k1, logs) := publishClickEvent k t.shortCode t.req now
    let (k2, logs2) := runPublishTasks k1 now ts
    (k2, logs ++ logs2)

/-- Everything one `GET /{shortCode}` request produces. -/
structure RequestOutcome where
  response : HttpResponse
  store : Store
  kafka : KafkaState
  publishLogs : List String
deriving Repr

/-- One full `GET /{shortCode}` request: the handler computes the
response from the store alone and spawns the publish tasks; the tasks
then run against the Kafka writer.  The response component is fixed
before the tasks touch the writer. -/
def processRequest (s : Store) (k : KafkaState) (shortCode : String)
    (r : Request) (now : Nat) : RequestOutcome :=
  let (s1, resp, tasks) := redirectHandler s shortCode r
  let (k1, logs) := runPublishTasks k now tasks
  { response := resp, store := s1, kafka := k1, publishLogs := logs }

/-- The `HealthResponse` struct: `{status, service, timestamp}`. -/
structure HealthResponse where
  status : String
  service : String
  timestamp : Nat
deriving DecidableEq, Repr

/-- JSON rendering of a `HealthResponse`, field for field. -/
def healthJSON (h : HealthResponse) : String :=
  "\x7b\"status\":" ++ jsonStr h.status ++
    ",\"service\":" ++ jsonStr h.service ++
    ",\"timestamp\":" ++ toString h.timestamp ++ "\x7d"

/-- Embeds `respondJSON`: sets the JSON content type and writes the
given status code and encoded body. -/
def respondJSON (status : Nat) (body : String) : HttpResponse :=
  { status := status, body := body, contentType := "application/json" }

/-- Embeds `redisClient.Ping(ctx).Result()`: `none` on success, an error
when the store does not answer. -/
def ping (s : Store) : Option String :=
  if s.reachable then none else some "connection refused"

/-- Embeds `healthHandler`: pings the store, reports `"healthy"` unless
the ping errs, and responds 200 with the JSON-encoded
`HealthResponse`. -/
def healthHandler (s : Store) (now : Nat) : HttpResponse :=
  let status := "healthy"
  let status := if (ping s).isSome then "unhealthy" else status
  respondJSON 200
    (healthJSON { status := status, service := "redirect-service", timestamp := now })

/-- First non-empty string in the list, else the default: the spec's
description of the client-address precedence, stated independently of
`getIP`. -/
def firstNonEmpty : List String → String → String
  | [], dflt => dflt
  | x :: xs, dflt => if x ≠ "" then x else firstNonEmpty xs dflt

/-- C1: for every short code `c` stored in the mapping store under key
`"url:" ++ c` with destination `d`, a `GET /{c}` on a reachable store
yields HTTP 302 with `Location` equal to `d`. -/
theorem redirect_found_302 (s : Store) (c d : String) (r : Request)
    (hreach : s.reachable = true)
    (hlook : s.data.lookup ("url:" ++ c) = some d) :
    (redirectHandler s c r).2.1.status = 302 ∧
    (redirectHandler s c r).2.1.location = some d := by
  simp [redirectHandler, redisGet, hreach, hlook]

/-- Witness for C1: the mapping `abc123 → https://example.com` redirects
with 302 and that Location. -/
theorem redirect_found_302_witness :
    (redirectHandler
        { data := [("url:abc123", "https://example.com")], reachable := true, gets := 0 }
        "abc123" { headers := [], remoteAddr := "127.0.0.1:5000" }).2.1.status = 302 ∧
    (redirectHandler
        { data := [("url:abc123", "https://example.com")], reachable := true, gets := 0 }
        "abc123" { headers := [], remoteAddr := "127.0.0.1:5000" }).2.1.location =
      some "https://example.com" :=
  redirect_found_302
    { data := [("url:abc123", "https://example.com")], reachable := true, gets := 0 }
    "abc123" "https://example.com" { headers := [], remoteAddr := "127.0.0.1:5000" }
    rfl (by decide)

/-- C7: the client address recorded for a request is the first non-empty
value among the forwarded-for header, the real-ip header and the raw
peer address, in that order. -/
theorem getIP_first_nonempty (r : Request) :
    getIP r =
      firstNonEmpty
        [headerGet r.headers "X-Forwarded-For", headerGet r.headers "X-Real-IP"]
        r.remoteAddr := by
  simp [getIP, firstNonEmpty]

/-- C9: resolving the same short code twice yields the same response
(in particular the same destination URL), and resolving never changes
the code-to-URL mapping. -/
theorem resolve_idempotent (s : Store) (c : String) (r : Request) :
    (redirectHandler (redirectHandler s c r).1 c r).2.1 = (redirectHandler s c r).2.1 ∧
    (redirectHandler s c r).1.data = s.data := by
  simp only [redirectHandler, redisGet]
  cases hr : s.reachable
  · simp [hr]
  · cases hl : s.data.lookup ("url:" ++ c) <;> simp [hr, hl]

/-- C10: the health endpoint answers 200 for every outcome of the store
probe; only the `status` field of the JSON body switches between
`healthy` and `unhealthy`. -/
theorem health_always_200 (s : Store) (now : Nat) :
    (healthHandler s now).status = 200 ∧
    (healthHandler s now).body =
      healthJSON
        { status := if s.reachable then "healthy" else "unhealthy",
          service := "redirect-service", timestamp := now } := by
  cases hr : s.reachable <;> simp [healthHandler, ping, respondJSON, hr]

/-- C2: the response to a redirect request is fixed by the store and the
request alone — it equals the handler's response computed before any
publish task runs, and it is the same for every state of the event-log
writer (reachable, unreachable, or arbitrarily delayed): the handler
never waits on publication. -/
theorem response_independent_of_event_log (s : Store) (k k2 : KafkaState)
    (c : String) (r : Request) (now now2 : Nat) :
    (processRequest s k c r now).response = (redirectHandler s c r).2.1 ∧
    (processRequest s k c r now).response = (processRequest s k2 c r now2).response := by
  simp [processRequest]

/-- C3: a `GET /{c}` for a short code absent from a reachable mapping
store answers 404 with no `Location` header and leaves the event log
untouched: zero click events are published. -/
theorem notfound_404_no_event (s : Store) (k : KafkaState) (c : String)
    (r : Request) (now : Nat)
    (hreach : s.reachable = true)
    (hlook : s.data.lookup ("url:" ++ c) = none) :
    (processRequest s k c r now).response.status = 404 ∧
    (processRequest s k c r now).response.location = none ∧
    (processRequest s k c r now).kafka = k := by
  simp [processRequest, redirectHandler, redisGet, hreach, hlook, runPublishTasks]

/-- Witness for C3: `GET /doesnotexist` on a store holding only
`abc123` yields 404 and publishes nothing. -/
theorem notfound_404_no_event_witness :
    (processRequest
        { data := [("url:abc123", "https://example.com")], reachable := true, gets := 0 }
        { partIds := [0, 1], balancer := ⟨[]⟩, log := [], reachable := true, attempts := 0 }
        "doesnotexist" { headers := [], remoteAddr := "127.0.0.1:5000" } 7).response.status = 404 ∧
    (processRequest
        { data := [("url:abc123", "https://example.com")], reachable := true, gets := 0 }
        { partIds := [0, 1], balancer := ⟨[]⟩, log := [], reachable := true, attempts := 0 }
        "doesnotexist" { headers := [], remoteAddr := "127.0.0.1:5000" } 7).response.location = none ∧
    (processRequest
        { data := [("url:abc123", "https://example.com")], reachable := true, gets := 0 }
        { partIds := [0, 1], balancer := ⟨[]⟩, log := [], reachable := true, attempts := 0 }
        "doesnotexist" { headers := [], remoteAddr := "127.0.0.1:5000" } 7).kafka =
      { partIds := [0, 1], balancer := ⟨[]⟩, log := [], reachable := true, attempts := 0 } :=
  notfound_404_no_event
    { data := [("url:abc123", "https://example.com")], reachable := true, gets := 0 }
    { partIds := [0, 1], balancer := ⟨[]⟩, log := [], reachable := true, attempts := 0 }
    "doesnotexist" { headers := [], remoteAddr := "127.0.0.1:5000" } 7
    rfl (by decide)

/-- C6: when the mapping store is unreachable, a `GET /{c}` answers 500
with no redirect, publishes no click event, and issues exactly one
store access — no retry happens inside the request. -/
theorem store_unreachable_500 (s : Store) (k : KafkaState) (c : String)
    (r : Request) (now : Nat)
    (h : s.reachable = false) :
    (processRequest s k c r now).response.status = 500 ∧
    (processRequest s k c r now).response.location = none ∧
    (processRequest s k c r now).kafka = k ∧
    (processRequest s k c r now).store.gets = s.gets + 1 := by
  simp [processRequest, redirectHandler, redisGet, h, runPublishTasks]

/-- Witness for C6: an unreachable store yields 500, no publish, one
store access. -/
theorem store_unreachable_500_witness :
    (processRequest
        { data := [("url:abc123", "https://example.com")], reachable := false, gets := 4 }
        { partIds := [0, 1], balancer := ⟨[]⟩, log := [], reachable := true, attempts := 0 }
        "abc123" { headers := [], remoteAddr := "127.0.0.1:5000" } 7).response.status = 500 ∧
    (processRequest
        { data := [("url:abc123", "https://example.com")], reachable := false, gets := 4 }
        { partIds := [0, 1], balancer := ⟨[]⟩, log := [], reachable := true, attempts := 0 }
        "abc123" { headers := [], remoteAddr := "127.0.0.1:5000" } 7).response.location = none ∧
    (processRequest
        { data := [("url:abc123", "https://example.com")], reachable := false, gets := 4 }
        { partIds := [0, 1], balancer := ⟨[]⟩, log := [], reachable := true, attempts := 0 }
        "abc123" { headers := [], remoteAddr := "127.0.0.1:5000" } 7).kafka =
      { partIds := [0, 1], balancer := ⟨[]⟩, log := [], reachable := true, attempts := 0 } ∧
    (processRequest
        { data := [("url:abc123", "https://example.com")], reachable := false, gets := 4 }
        { partIds := [0, 1], balancer := ⟨[]⟩, log := [], reachable := true, attempts := 0 }
        "abc123" { headers := [], remoteAddr := "127.0.0.1:5000" } 7).store.gets = 4 + 1 :=
  store_unreachable_500
    { data := [("url:abc123", "https://example.com")], reachable := false, gets := 4 }
    { partIds := [0, 1], balancer := ⟨[]⟩, log := [], reachable := true, attempts := 0 }
    "abc123" { headers := [], remoteAddr := "127.0.0.1:5000" } 7 rfl

/-- C5: when the event-log write fails (broker unreachable), the request
still answers 302 with the stored destination and an empty body, the log
receives nothing, exactly one write attempt is made (no retry), and the
only trace of the failure is the publisher's log line — nothing reaches
the HTTP response and the handler returns normally. -/
theorem publish_failure_contained (s : Store) (k : KafkaState) (c d : String)
    (r : Request) (now : Nat)
    (hreach : s.reachable = true)
    (hlook : s.data.lookup ("url:" ++ c) = some d)
    (hk : k.reachable = false) :
    (processRequest s k c r now).response =
      { status := 302, location := some d, body := "", contentType := "" } ∧
    (processRequest s k c r now).kafka.log = k.log ∧
    (processRequest s k c r now).kafka.attempts = k.attempts + 1 ∧
    (processRequest s k c r now).publishLogs =
      ["[Redirect Service] Failed to publish to Kafka"] := by
  simp [processRequest, redirectHandler, redisGet, hreach, hlook, runPublishTasks,
    publishClickEvent, jsonMarshal, writeMessages, hk]

/-- Witness for C5: with the broker down, `GET /abc123` still redirects
with 302, one failed attempt, nothing written, failure logged. -/
theorem publish_failure_contained_witness :
    (processRequest
        { data := [("url:abc123", "https://example.com")], reachable := true, gets := 0 }
        { partIds := [0, 1], balancer := ⟨[]⟩, log := [], reachable := false, attempts := 2 }
        "abc123" { headers := [], remoteAddr := "127.0.0.1:5000" } 7).response =
      { status := 302, location := some "https://example.com", body := "", contentType := "" } ∧
    (processRequest
        { data := [("url:abc123", "https://example.com")], reachable := true, gets := 0 }
        { partIds := [0, 1], balancer := ⟨[]⟩, log := [], reachable := false, attempts := 2 }
        "abc123" { headers := [], remoteAddr := "127.0.0.1:5000" } 7).kafka.log = [] ∧
    (processRequest
        { data := [("url:abc123", "https://example.com")], reachable := true, gets := 0 }
        { partIds := [0, 1], balancer := ⟨[]⟩, log := [], reachable := false, attempts := 2 }
        "abc123" { headers := [], remoteAddr := "127.0.0.1:5000" } 7).kafka.attempts = 2 + 1 ∧
    (processRequest
        { data := [("url:abc123", "https://example.com")], reachable := true, gets := 0 }
        { partIds := [0, 1], balancer := ⟨[]⟩, log := [], reachable := false, attempts := 2 }
        "abc123" { headers := [], remoteAddr := "127.0.0.1:5000" } 7).publishLogs =
      ["[Redirect Service] Failed to publish to Kafka"] :=
  publish_failure_contained
    { data := [("url:abc123", "https://example.com")], reachable := true, gets := 0 }
    { partIds := [0, 1], balancer := ⟨[]⟩, log := [], reachable := false, attempts := 2 }
    "abc123" "https://example.com" { headers := [], remoteAddr := "127.0.0.1:5000" } 7
    rfl (by decide) rfl

/-- Counterexample for C4: on a two-partition topic, a fresh writer
publishing two click events for the same short code `abc123` places
them in partition 0 and partition 1 — the `LeastBytes` balancer the
service installs assigns partitions by load, ignoring the message key,
so events for one short code do not all land in one partition. -/
theorem same_code_two_partitions :
    ((publishClickEvent
        (publishClickEvent
          { partIds := [0, 1], balancer := ⟨[]⟩, log := [], reachable := true, attempts := 0 }
          "abc123" { headers := [], remoteAddr := "127.0.0.1:5000" } 1).1
        "abc123" { headers := [], remoteAddr := "127.0.0.1:5000" } 2).1.log.map
      (fun e => (e.1, e.2.key))) = [(0, "abc123"), (1, "abc123")] := by
  decide

/-- C4 amended: every click event is written under a message key equal
to its short code — any two events for the same code carry identical
key strings — but the partition is chosen by the least-bytes balancer
independently of that key. -/
theorem publish_key_is_shortcode (k : KafkaState) (c : String) (r : Request)
    (now : Nat) :
    (publishClickEvent k c r now).1.log.map (fun e => e.2.key) =
      k.log.map (fun e => e.2.key) ++ (if k.reachable then [c] else []) := by
  cases hk : k.reachable <;>
    simp [publishClickEvent, jsonMarshal, writeMessages, hk]

/-- Bool test: is `n` a prefix of the second list (character lists). -/
def isPrefixL : List Char → List Char → Bool
  | [], _ => true
  | _ :: _, [] => false
  | a :: as, b :: bs => a == b && isPrefixL as bs

/-- Bool test: does `n` occur as a contiguous run inside the second
list. -/
def hasSub (n : List Char) : List Char → Bool
  | [] => isPrefixL n []
  | c :: cs => isPrefixL n (c :: cs) || hasSub n cs

/-- Does the JSON text `body` contain the quoted key `key` followed by a
colon, i.e. does it carry a field of that name. -/
def hasField (body key : String) : Bool :=
  hasSub ("\"" ++ key ++ "\":").toList body.toList

theorem isPrefixL_append (n a b : List Char) (h : isPrefixL n a = true) :
    isPrefixL n (a ++ b) = true := by
  induction n generalizing a with
  | nil => simp [isPrefixL]
  | cons x xs ih =>
    cases a with
    | nil => simp [isPrefixL] at h
    | cons y ys =>
      simp only [isPrefixL, Bool.and_eq_true] at h
      simp only [List.cons_append, isPrefixL, Bool.and_eq_true]
      exact ⟨h.1, ih ys h.2⟩

theorem hasSub_nil_needle (l : List Char) : hasSub [] l = true := by
  cases l <;> simp [hasSub, isPrefixL]

theorem hasSub_append_left (n a b : List Char) (h : hasSub n a = true) :
    hasSub n (a ++ b) = true := by
  induction a with
  | nil =>
    cases n with
    | nil => exact hasSub_nil_needle b
    | cons x xs => simp [hasSub, isPrefixL] at h
  | cons c cs ih =>
    simp only [hasSub, Bool.or_eq_true] at h
    simp only [List.cons_append, hasSub, Bool.or_eq_true]
    cases h with
    | inl h => exact Or.inl (isPrefixL_append n (c :: cs) b h)
    | inr h => exact Or.inr (ih h)

theorem strToList_append (a b : String) : (a ++ b).toList = a.toList ++ b.toList := rfl

/-- A field found in the fixed part of the health JSON is a field of the
whole rendered body, whatever the timestamp renders to. -/
theorem hasField_healthJSON (st sv : String) (ts : Nat) (key : String)
    (hp : hasField ("\x7b\"status\":" ++ jsonStr st ++ ",\"service\":" ++
        jsonStr sv ++ ",\"timestamp\":") key = true) :
    hasField (healthJSON { status := st, service := sv, timestamp := ts }) key = true := by
  unfold hasField at hp ⊢
  unfold healthJSON
  rw [strToList_append, strToList_append]
  exact hasSub_append_left _ _ _ (hasSub_append_left _ _ _ hp)

/-- C8: the health endpoint's body is the JSON encoding of a
`HealthResponse` whose `status` field is `"healthy"` precisely when the
store answers the liveness ping; the body carries `status`, `service`
and `timestamp` fields and is served as JSON. -/
theorem health_healthy_iff_ping (s : Store) (now : Nat) :
    (∃ st, (healthHandler s now).body =
          healthJSON { status := st, service := "redirect-service", timestamp := now } ∧
        (st = "healthy" ↔ ping s = none)) ∧
    hasField (healthHandler s now).body "status" = true ∧
    hasField (healthHandler s now).body "service" = true ∧
    hasField (healthHandler s now).body "timestamp" = true ∧
    (healthHandler s now).contentType = "application/json" := by
  cases hr : s.reachable
  · have hb : (healthHandler s now).body =
        healthJSON { status := "unhealthy", service := "redirect-service", timestamp := now } := by
      simp [healthHandler, ping, respondJSON, hr]
    refine ⟨⟨"unhealthy", hb, by simp [ping, hr]⟩, ?_, ?_, ?_, ?_⟩
    · rw [hb]; exact hasField_healthJSON _ _ _ _ (by decide)
    · rw [hb]; exact hasField_healthJSON _ _ _ _ (by decide)
    · rw [hb]; exact hasField_healthJSON _ _ _ _ (by decide)
    · simp [healthHandler, respondJSON]
  · have hb : (healthHandler s now).body =
        healthJSON { status := "healthy", service := "redirect-service", timestamp := now } := by
      simp [healthHandler, ping, respondJSON, hr]
    refine ⟨⟨"healthy", hb, by simp [ping, hr]⟩, ?_, ?_, ?_, ?_⟩
    · rw [hb]; exact hasField_healthJSON _ _ _ _ (by decide)
    · rw [hb]; exact hasField_healthJSON _ _ _ _ (by decide)
    · rw [hb]; exact hasField_healthJSON _ _ _ _ (by decide)
    · simp [healthHandler, respondJSON]

end RedirectService
